import Mathlib

/-!
Verification of the graphite-cli stack engine against its source.

The development shallowly embeds three areas of the code base:
  * `src/actions/submit/validate_branches.ts` — the submit gating
    (`getValidBranchesToSubmit`, `hasAnyMergedBranches`,
    `hasAnyClosedBranches`, `checkForEmptyBranches`);
  * `apps/cli/src/actions/submit/submit_prs.ts` — the transport layer
    (`submitPullRequest`, `parseSubmitError`, `requestServerToSubmitPRs`);
  * `src/commands/original-commands/restack/index.ts` — the restack engine
    (`RestackCommand._execute`, `restackOnto`, `restackBranch`,
    `checkBranchCanBeMoved`, `validate`).

External collaborators (the git adapter, the meta store, the review host,
the prompt library) are modelled as explicit state or as oracle functions
carried in an environment record, so every definition is executable.
-/

namespace GraphiteCli

/-- The state of a pull request as stored in a branch's `prInfo`. -/
inductive PRState where
  | OPEN
  | MERGED
  | CLOSED
deriving DecidableEq

/-- Modelled from the spec: the view of a branch that the submit validation
reads — its name, its meta parent (`getParentFromMeta`), and the state of
its PR info (`getPRInfo()?.state`) as it stands after PR sync. The Branch
wrapper class itself is not under src; these are the only accessors
`validate_branches.ts` uses. -/
structure SBranch where
  name : String
  parent : Option String
  prState : Option PRState
deriving DecidableEq

/-- External collaborators of `checkForEmptyBranches`: the git-backed
emptiness test `isEmptyBranch(branch, base)`, the
`execStateConfig.interactive()` flag, and the value the `prompts` select
resolves with (`none` models the user cancelling, which `onCancel` turns
into a `KilledError`). -/
structure SubmitEnv where
  isEmptyBranch : String → String → Bool
  interactive : Bool
  promptAnswer : Option String

/-- The error kinds `validate_branches.ts` can throw. -/
inductive SubmitErr where
  | killed
  | preconditionsFailed (msg : String)
  | validationFailed (msg : String)
deriving DecidableEq

/-- The message `getBranchBaseName` throws when a branch has no meta parent. -/
def missingParentMsg (b : String) : String :=
  "Could not find parent for branch " ++ b ++ " to submit PR against. Please checkout " ++
    b ++ " and run `gt upstack onto <parent_branch>` to set its parent."

/-- `getBranchBaseName` from validate_branches.ts: the meta parent's name,
or a `PreconditionsFailedError` when the branch has none. -/
def getBranchBaseName (b : SBranch) : Except SubmitErr String :=
  match b.parent with
  | none => .error (.preconditionsFailed (missingParentMsg b.name))
  | some p => .ok p

/-- The `submittableBranches.filter(...)` step of `checkForEmptyBranches`:
keep the branches whose diff against their base is empty, throwing as soon
as a branch has no meta parent (the JS filter callback evaluates
`getBranchBaseName` per element, in list order). -/
def emptyBranchesOf (env : SubmitEnv) : List SBranch → Except SubmitErr (List SBranch)
  | [] => .ok []
  | b :: rest => do
    let base ← getBranchBaseName b
    let tail ← emptyBranchesOf env rest
    pure (if env.isEmptyBranch b.name base then b :: tail else tail)

/-- The emptiness test of one branch, as `checkForEmptyBranches` performs it
(false only matters on branches that do have a parent; a branch without one
makes `emptyBranchesOf` throw before any result is built). -/
def branchIsEmpty (env : SubmitEnv) (b : SBranch) : Bool :=
  match b.parent with
  | some p => env.isEmptyBranch b.name p
  | none => false

/-- The `logWarn` header of the empty-branch warning. -/
def emptyWarnHeader (multiple : Bool) : String :=
  if multiple then "The following branches have no changes:"
  else "The following branch has no changes:"

/-- The `logWarn` question of the empty-branch warning. -/
def emptyWarnQuestion (multiple : Bool) : String :=
  if multiple then "Are you sure you want to submit them?"
  else "Are you sure you want to submit it?"

/-- `checkForEmptyBranches` from validate_branches.ts. Returns the branch
list it resolves with, paired with the warn-log lines it prints; errors are
the thrown `KilledError` (prompt cancelled) and the `PreconditionsFailedError`
out of `getBranchBaseName`. -/
def checkForEmptyBranches (env : SubmitEnv) (submittableBranches : List SBranch) :
    Except SubmitErr (List SBranch × List String) := do
  let emptyBranches ← emptyBranchesOf env submittableBranches
  if emptyBranches.length = 0 then
    pure (submittableBranches, [])
  else
    let hasMultipleBranches := decide (1 < emptyBranches.length)
    let logs := emptyWarnHeader hasMultipleBranches ::
      emptyBranches.map (fun b => "▸ " ++ b.name) ++
      [emptyWarnQuestion hasMultipleBranches, ""]
    if env.interactive = false then
      pure (([] : List SBranch), logs)
    else
      match env.promptAnswer with
      | none => .error .killed
      | some ans =>
        pure ((if ans = "continue_empty" then submittableBranches else []), logs ++ [""])

/-- The `logError` header of the merged-branch refusal. -/
def mergedHeader (multiple : Bool) : String :=
  if multiple then "PRs for the following branches have already been merged:"
  else "PR for the following branch has already been merged:"

/-- The remediation line of the merged-branch refusal. -/
def mergedRemediation (multiple : Bool) : String :=
  if multiple then
    "If this is expected, you can use 'gt repo sync' to delete these branches locally and restack dependencies."
  else
    "If this is expected, you can use 'gt repo sync' to delete this branch locally and restack dependencies."

/-- `hasAnyMergedBranches` from validate_branches.ts: whether any branch in
the submit set has a MERGED PR, together with the error-log lines printed
when there is one. -/
def hasAnyMergedBranches (branchesToSubmit : List SBranch) : Bool × List String :=
  let mergedBranches := branchesToSubmit.filter fun b => decide (b.prState = some PRState.MERGED)
  if mergedBranches.length = 0 then (false, [])
  else
    (true, mergedHeader (decide (1 < mergedBranches.length)) ::
      mergedBranches.map (fun b => "▸ " ++ b.name) ++
      [mergedRemediation (decide (1 < mergedBranches.length))])

/-- The `logError` header of the closed-branch refusal. -/
def closedHeader (multiple : Bool) : String :=
  if multiple then "PRs for the following branches have been closed:"
  else "PR for the following branch has been closed:"

/-- The remediation line of the closed-branch refusal. -/
def closedRemediation (multiple : Bool) : String :=
  if multiple then "To submit these branches, please reopen the PR remotely."
  else "To submit this branch, please reopen the PR remotely."

/-- `hasAnyClosedBranches` from validate_branches.ts. -/
def hasAnyClosedBranches (branchesToSubmit : List SBranch) : Bool × List String :=
  let closedBranches := branchesToSubmit.filter fun b => decide (b.prState = some PRState.CLOSED)
  if closedBranches.length = 0 then (false, [])
  else
    (true, closedHeader (decide (1 < closedBranches.length)) ::
      closedBranches.map (fun b => "▸ " ++ b.name) ++
      [closedRemediation (decide (1 < closedBranches.length))])

/-- `getValidBranchesToSubmit` from validate_branches.ts, modelled from the
point after `getAllBranchesToSubmit` and `syncPRInfoForBranches` have run:
`branchesToSubmit` carries each branch's post-sync `prInfo.state` (stack
building and PR sync are external to this gate and mutate nothing the gate
reads afterwards). Returns the valid submit set together with the
error/warn log lines; the `||` in the source is short-circuiting, so the
closed-branch messages are only printed when no branch is merged. -/
def getValidBranchesToSubmit (env : SubmitEnv) (branchesToSubmit : List SBranch) :
    Except SubmitErr (List SBranch × List String) :=
  let merged := hasAnyMergedBranches branchesToSubmit
  if merged.1 then .ok ([], merged.2)
  else
    let closed := hasAnyClosedBranches branchesToSubmit
    if closed.1 then .ok ([], closed.2)
    else checkForEmptyBranches env branchesToSubmit

lemma emptyBranchesOf_all_parents (env : SubmitEnv) :
    ∀ bs : List SBranch, (∀ b ∈ bs, b.parent.isSome = true) →
      emptyBranchesOf env bs = .ok (bs.filter (branchIsEmpty env))
  | [], _ => by simp [emptyBranchesOf]
  | b :: rest, h => by
    obtain ⟨p, hp⟩ := Option.isSome_iff_exists.mp (h b (List.mem_cons_self b rest))
    have ih := emptyBranchesOf_all_parents env rest (fun x hx => h x (List.mem_cons_of_mem b hx))
    simp only [emptyBranchesOf, getBranchBaseName, hp, ih, List.filter_cons, branchIsEmpty,
      Bind.bind, Except.bind, pure, Except.pure]

lemma filter_length_ne_zero_of_mem {p : SBranch → Bool} {bs : List SBranch} {b : SBranch}
    (hb : b ∈ bs) (hp : p b = true) : (bs.filter p).length ≠ 0 := by
  simp only [ne_eq, List.length_eq_zero]
  intro hnil
  have hmem : b ∈ bs.filter p := List.mem_filter.mpr ⟨hb, hp⟩
  rw [hnil] at hmem
  exact absurd hmem (List.not_mem_nil b)

/-- C2: if any branch in the submit set has a MERGED or CLOSED PR after PR
sync, `getValidBranchesToSubmit` resolves with the empty submit set (so the
caller issues no submit API call and writes no meta), telling the user to
run `gt repo sync` when a PR is merged and to reopen the PR remotely when
(no PR being merged) one is closed. -/
theorem getValidBranchesToSubmit_refuses_merged_closed (env : SubmitEnv) (bs : List SBranch)
    (h : ∃ b ∈ bs, b.prState = some PRState.MERGED ∨ b.prState = some PRState.CLOSED) :
    ∃ logs, getValidBranchesToSubmit env bs = .ok ([], logs) ∧
      ((∃ b ∈ bs, b.prState = some PRState.MERGED) →
        mergedRemediation
          (decide (1 < (bs.filter fun b => decide (b.prState = some PRState.MERGED)).length)) ∈ logs) ∧
      ((∀ b ∈ bs, b.prState ≠ some PRState.MERGED) →
        closedRemediation
          (decide (1 < (bs.filter fun b => decide (b.prState = some PRState.CLOSED)).length)) ∈ logs) := by
  by_cases hm : ∃ b ∈ bs, b.prState = some PRState.MERGED
  · obtain ⟨b, hb, hs⟩ := hm
    have hne := filter_length_ne_zero_of_mem (p := fun b => decide (b.prState = some PRState.MERGED))
      hb (by simp [hs])
    refine ⟨mergedHeader (decide (1 <
        (bs.filter fun b => decide (b.prState = some PRState.MERGED)).length)) ::
        ((bs.filter fun b => decide (b.prState = some PRState.MERGED)).map
            (fun b => "▸ " ++ b.name) ++
          [mergedRemediation (decide (1 <
            (bs.filter fun b => decide (b.prState = some PRState.MERGED)).length))]),
      ?_, fun _ => ?_, fun hall => absurd hs (hall b hb)⟩
    · simp [getValidBranchesToSubmit, hasAnyMergedBranches, hne]
    · simp
  · obtain ⟨b, hb, hs⟩ := h
    have hcl : b.prState = some PRState.CLOSED := by
      rcases hs with hs | hs
      · exact absurd ⟨b, hb, hs⟩ hm
      · exact hs
    have hmerged_nil : (bs.filter fun b => decide (b.prState = some PRState.MERGED)) = [] := by
      rw [List.filter_eq_nil_iff]
      intro a ha
      simp only [decide_eq_true_eq]
      intro hcontra
      exact hm ⟨a, ha, hcontra⟩
    have hne := filter_length_ne_zero_of_mem (p := fun b => decide (b.prState = some PRState.CLOSED))
      hb (by simp [hcl])
    refine ⟨closedHeader (decide (1 <
        (bs.filter fun b => decide (b.prState = some PRState.CLOSED)).length)) ::
        ((bs.filter fun b => decide (b.prState = some PRState.CLOSED)).map
            (fun b => "▸ " ++ b.name) ++
          [closedRemediation (decide (1 <
            (bs.filter fun b => decide (b.prState = some PRState.CLOSED)).length))]),
      ?_, fun hx => absurd hx hm, fun _ => ?_⟩
    · simp [getValidBranchesToSubmit, hasAnyMergedBranches, hasAnyClosedBranches,
        hmerged_nil, hne]
    · simp

/-- Witness for C2 at a one-branch submit set whose PR is MERGED. -/
theorem getValidBranchesToSubmit_refuses_merged_closed_w :
    (∃ b ∈ [SBranch.mk "C" (some "B") (some PRState.MERGED)],
        b.prState = some PRState.MERGED ∨ b.prState = some PRState.CLOSED) ∧
      (∃ logs, getValidBranchesToSubmit ⟨fun _ _ => false, true, none⟩
            [SBranch.mk "C" (some "B") (some PRState.MERGED)] = .ok ([], logs) ∧
        ((∃ b ∈ [SBranch.mk "C" (some "B") (some PRState.MERGED)],
            b.prState = some PRState.MERGED) →
          mergedRemediation (decide (1 <
            ([SBranch.mk "C" (some "B") (some PRState.MERGED)].filter
              fun b => decide (b.prState = some PRState.MERGED)).length)) ∈ logs) ∧
        ((∀ b ∈ [SBranch.mk "C" (some "B") (some PRState.MERGED)],
            b.prState ≠ some PRState.MERGED) →
          closedRemediation (decide (1 <
            ([SBranch.mk "C" (some "B") (some PRState.MERGED)].filter
              fun b => decide (b.prState = some PRState.CLOSED)).length)) ∈ logs)) :=
  ⟨by decide, getValidBranchesToSubmit_refuses_merged_closed _ _ (by decide)⟩

/-- C5: in non-interactive mode, a submit set containing at least one
empty branch makes `checkForEmptyBranches` resolve with the empty list
(so no submit API call is made), after printing the warning but without
prompting. -/
theorem checkForEmptyBranches_nonInteractive (env : SubmitEnv) (bs : List SBranch)
    (hpar : ∀ b ∈ bs, b.parent.isSome = true)
    (hempty : ∃ b ∈ bs, branchIsEmpty env b = true)
    (hni : env.interactive = false) :
    ∃ logs, checkForEmptyBranches env bs = .ok ([], logs) ∧
      emptyWarnHeader (decide (1 < (bs.filter (branchIsEmpty env)).length)) ∈ logs := by
  obtain ⟨b, hb, he⟩ := hempty
  have hfilter := emptyBranchesOf_all_parents env bs hpar
  have hne := filter_length_ne_zero_of_mem (p := branchIsEmpty env) hb he
  refine ⟨emptyWarnHeader (decide (1 < (bs.filter (branchIsEmpty env)).length)) ::
      ((bs.filter (branchIsEmpty env)).map (fun b => "▸ " ++ b.name) ++
        [emptyWarnQuestion (decide (1 < (bs.filter (branchIsEmpty env)).length)), ""]),
    ?_, List.mem_cons_self _ _⟩
  simp [checkForEmptyBranches, hfilter, Bind.bind, Except.bind, hne, hni, pure, Except.pure]

/-- Witness for C5 at a one-branch submit set whose branch is empty. -/
theorem checkForEmptyBranches_nonInteractive_w :
    (∀ b ∈ [SBranch.mk "B" (some "A") none], b.parent.isSome = true) ∧
      (∃ b ∈ [SBranch.mk "B" (some "A") none],
        branchIsEmpty ⟨fun _ _ => true, false, none⟩ b = true) ∧
      (∃ logs, checkForEmptyBranches ⟨fun _ _ => true, false, none⟩
            [SBranch.mk "B" (some "A") none] = .ok ([], logs) ∧
        emptyWarnHeader (decide (1 <
          ([SBranch.mk "B" (some "A") none].filter
            (branchIsEmpty ⟨fun _ _ => true, false, none⟩)).length)) ∈ logs) :=
  ⟨by decide, by decide,
    checkForEmptyBranches_nonInteractive _ _ (by decide) (by decide) (by decide)⟩

/-- C10: `checkForEmptyBranches` is all-or-nothing — whenever it resolves,
the branch list it returns is either the whole input or empty, never a
proper non-empty subset. -/
theorem checkForEmptyBranches_all_or_nothing (env : SubmitEnv) (bs : List SBranch)
    (r : List SBranch) (logs : List String)
    (h : checkForEmptyBranches env bs = .ok (r, logs)) : r = bs ∨ r = [] := by
  unfold checkForEmptyBranches at h
  cases he : emptyBranchesOf env bs with
  | error e => rw [he] at h; simp [Bind.bind, Except.bind] at h
  | ok l =>
    rw [he] at h
    simp only [Bind.bind, Except.bind, pure, Except.pure] at h
    split at h
    · exact Or.inl (congrArg Prod.fst (Except.ok.inj h)).symm
    · split at h
      · exact Or.inr (congrArg Prod.fst (Except.ok.inj h)).symm
      · split at h
        · simp at h
        · split at h
          · exact Or.inl (congrArg Prod.fst (Except.ok.inj h)).symm
          · exact Or.inr (congrArg Prod.fst (Except.ok.inj h)).symm

/-- Witness for C10 on a non-empty one-branch input that is returned whole. -/
theorem checkForEmptyBranches_all_or_nothing_w :
    [SBranch.mk "B" (some "A") none] = [SBranch.mk "B" (some "A") none] ∨
      [SBranch.mk "B" (some "A") none] = [] :=
  checkForEmptyBranches_all_or_nothing ⟨fun _ _ => false, false, none⟩
    [SBranch.mk "B" (some "A") none] [SBranch.mk "B" (some "A") none] [] rfl

/-- A JSON value, as `JSON.parse` can produce one. -/
inductive Json where
  | null
  | bool (b : Bool)
  | num (n : Int)
  | str (s : String)
  | arr (xs : List Json)
  | obj (fields : List (String × Json))

/-- Field lookup on a JSON object (first matching key); `none` on every
other value class, the way a property read misses on non-objects. -/
def jslookup : Json → String → Option Json
  | .obj fields, k => (fields.find? (fun f => f.1 == k)).map (·.2)
  | _, _ => none

/-- One step of the optional chaining `x?.k`: `none` stands for the JS
undefined, and `null?.k` is undefined as well. -/
def jsGet (o : Option Json) (k : String) : Option Json :=
  match o with
  | none => none
  | some .null => none
  | some j => jslookup j k

mutual
/-- The string a JS template literal renders a JSON value to. -/
def jsDisplay : Json → String
  | .null => "null"
  | .bool b => cond b "true" "false"
  | .num n => toString n
  | .str s => s
  | .arr xs => jsDisplayArr xs
  | .obj _ => "[object Object]"
termination_by j => (sizeOf j, 1)

/-- Array rendering: elements joined with commas. -/
def jsDisplayArr : List Json → String
  | [] => ""
  | [x] => jsDisplayElem x
  | x :: rest => jsDisplayElem x ++ "," ++ jsDisplayArr rest
termination_by xs => (sizeOf xs, 0)

/-- Inside an array, null renders as the empty string. -/
def jsDisplayElem : Json → String
  | .null => ""
  | j => jsDisplay j
termination_by j => (sizeOf j, 2)
end

/-- The per-branch submit action. -/
inductive SubmitAction where
  | create
  | update
deriving DecidableEq

/-- One entry of `TPRSubmissionInfo`: the per-branch PR request the CLI
sends, as `submit_prs.ts` reads it (action, head, base, create-time title
and body, draft flag). -/
structure TSubmittedPRRequest where
  action : SubmitAction
  head : String
  base : String
  title : Option String
  body : Option String
  draft : Option Bool
deriving DecidableEq

/-- The per-branch status of a submit response. -/
inductive PRResponseStatus where
  | updated
  | created
  | error
deriving DecidableEq

/-- One per-branch response entry, as `submit_prs.ts` reads it. -/
structure TSubmittedPRResponse where
  head : String
  status : PRResponseStatus
  prNumber : Nat
  prURL : String
  error : String
deriving DecidableEq

/-- The request/response pair `requestServerToSubmitPRs` builds; the
request is `none` when the response head matches no request in the batch
(a property read on the map would give undefined). -/
structure TSubmittedPR where
  request : Option TSubmittedPRRequest
  response : TSubmittedPRResponse
deriving DecidableEq

/-- The transport-level response as `requestServerToSubmitPRs` inspects
it: HTTP status, whether a body is present, the parsed per-branch entries,
the x-graphite-request-id header (`none` = absent), and the string
`cuteString(response)` renders. -/
structure ServerResponse where
  status : Nat
  hasBody : Bool
  prs : List TSubmittedPRResponse
  requestId : Option String
  rendered : String
deriving DecidableEq

/-- The error kinds `submit_prs.ts` can throw. `jsUndefined` marks the
runtime fault of reading a property off undefined (empty response list, or
a response head matching no request). -/
inductive SubmitPrsErr where
  | preconditionsFailed (msg : String)
  | exitFailed (msg : String)
  | jsUndefined
deriving DecidableEq

def SUCCESS_RESPONSE_CODE : Nat := 200

def UNAUTHORIZED_RESPONSE_CODE : Nat := 401

/-- The `requests` map of `requestServerToSubmitPRs`: built by a forEach
assignment keyed on head, so the last request with a given head wins. -/
def lookupRequest (submissionInfo : List TSubmittedPRRequest) (head : String) :
    Option TSubmittedPRRequest :=
  submissionInfo.reverse.find? (fun r => r.head == head)

/-- The auth-expiry message thrown on a 401. -/
def authExpiredMsg (appServerUrl : String) : String :=
  "Your Graphite auth token is invalid/expired.\n\nPlease obtain a new auth token by visiting " ++
    appServerUrl ++ "/activate"

/-- The formatted debug-header block: the x-graphite-request-id header, an
absent or empty value printed as a placeholder (`value || '<empty>'`). -/
def formattedRequestIdHeader (requestId : Option String) : String :=
  "  x-graphite-request-id: " ++
    (match requestId with
     | some v => if v = "" then "<empty>" else v
     | none => "<empty>")

/-- The message of the `ExitFailedError` thrown on an unexpected status. -/
def unexpectedResponseMsg (r : ServerResponse) : String :=
  "Unexpected server response (" ++ toString r.status ++ ").\n\nHeaders:\n" ++
    formattedRequestIdHeader r.requestId ++ "\n\nResponse: " ++ r.rendered

/-- `requestServerToSubmitPRs` from submit_prs.ts, the HTTP round trip
itself abstracted into the `r` it has to inspect: a 200 with a body pairs
each per-branch response with its request by head name; a 401 throws the
auth-expiry `PreconditionsFailedError`; anything else throws an
`ExitFailedError` carrying the x-graphite-request-id header. -/
def requestServerToSubmitPRs (submissionInfo : List TSubmittedPRRequest)
    (appServerUrl : String) (r : ServerResponse) : Except SubmitPrsErr (List TSubmittedPR) :=
  if r.status = SUCCESS_RESPONSE_CODE ∧ r.hasBody = true then
    .ok (r.prs.map fun prResponse =>
      { request := lookupRequest submissionInfo prResponse.head, response := prResponse })
  else if r.status = UNAUTHORIZED_RESPONSE_CODE then
    .error (.preconditionsFailed (authExpiredMsg appServerUrl))
  else
    .error (.exitFailed (unexpectedResponseMsg r))

/-- `parseSubmitError` from submit_prs.ts:
`JSON.parse(error)?.response?.data?.message ?? error`, with the parse
failure caught and mapped to the raw error string. `parseJson` stands for
`JSON.parse` (`none` = the parse threw). -/
def parseSubmitError (parseJson : String → Option Json) (error : String) : String :=
  match parseJson error with
  | none => error
  | some j =>
    match jsGet (jsGet (jsGet (some j) "response") "data") "message" with
    | none => error
    | some .null => error
    | some v => jsDisplay v

/-- The patch record handed to `upsertPrInfo` on a successful response:
number and URL from the response, base from the request, state OPEN, the
create-time fields only when the request action is create, and the draft
flag only when the request carries one. -/
structure PrInfoPatch where
  number : Nat
  url : String
  base : String
  state : PRState
  title : Option String := none
  body : Option String := none
  reviewDecision : Option String := none
  draft : Option Bool := none
deriving DecidableEq

/-- Builds the `upsertPrInfo` patch of `submitPullRequest` for a
request/response pair. -/
def prInfoPatchOf (req : TSubmittedPRRequest) (resp : TSubmittedPRResponse) : PrInfoPatch :=
  { number := resp.prNumber
    url := resp.prURL
    base := req.base
    state := PRState.OPEN
    title := if req.action = SubmitAction.create then req.title else none
    body := if req.action = SubmitAction.create then req.body else none
    reviewDecision := if req.action = SubmitAction.create then some "REVIEW_REQUIRED" else none
    draft := req.draft }

/-- The message of the `ExitFailedError` thrown on a per-branch error
response. -/
def submitFailedMsg (head msg : String) : String :=
  "Failed to submit PR for " ++ head ++ ": " ++ msg

/-- `submitPullRequest` from submit_prs.ts. The value returned is the list
of `upsertPrInfo` writes it performs, in order: the source takes element
`[0]` of the response pairs, throws on a per-branch error response, and
otherwise issues the single upsert for that first pair. -/
def submitPullRequest (parseJson : String → Option Json)
    (submissionInfo : List TSubmittedPRRequest) (appServerUrl : String)
    (r : ServerResponse) : Except SubmitPrsErr (List (String × PrInfoPatch)) :=
  match requestServerToSubmitPRs submissionInfo appServerUrl r with
  | .error e => .error e
  | .ok prs =>
    match prs.head? with
    | none => .error .jsUndefined
    | some pr =>
      if pr.response.status = PRResponseStatus.error then
        .error (.exitFailed (submitFailedMsg pr.response.head
          (parseSubmitError parseJson pr.response.error)))
      else
        match pr.request with
        | none => .error .jsUndefined
        | some req => .ok [(pr.response.head, prInfoPatchOf req pr.response)]

/-- C4: `requestServerToSubmitPRs` maps transport outcomes three ways — a
200 with a body takes the success path, pairing the per-branch responses
with their requests by head name; a 401 throws the auth-expiry error whose
message directs the user to appServerUrl/activate, and the enclosing
`submitPullRequest` then performs no upsert; any other status throws an
error whose message carries the x-graphite-request-id response header. -/
theorem requestServerToSubmitPRs_transport (submissionInfo : List TSubmittedPRRequest)
    (appServerUrl : String) (r : ServerResponse) (parseJson : String → Option Json) :
    (r.status = 200 → r.hasBody = true →
      requestServerToSubmitPRs submissionInfo appServerUrl r =
        .ok (r.prs.map fun prResponse =>
          { request := lookupRequest submissionInfo prResponse.head, response := prResponse })) ∧
    (r.status = 401 →
      requestServerToSubmitPRs submissionInfo appServerUrl r =
        .error (.preconditionsFailed
          ("Your Graphite auth token is invalid/expired.\n\nPlease obtain a new auth token by visiting " ++
            appServerUrl ++ "/activate")) ∧
      submitPullRequest parseJson submissionInfo appServerUrl r =
        .error (.preconditionsFailed (authExpiredMsg appServerUrl))) ∧
    (r.status ≠ 200 → r.status ≠ 401 →
      requestServerToSubmitPRs submissionInfo appServerUrl r =
        .error (.exitFailed (unexpectedResponseMsg r)) ∧
      ∀ v, r.requestId = some v → v ≠ "" →
        unexpectedResponseMsg r =
          "Unexpected server response (" ++ toString r.status ++ ").\n\nHeaders:\n" ++
            ("  x-graphite-request-id: " ++ v) ++ "\n\nResponse: " ++ r.rendered) := by
  refine ⟨fun h1 h2 => ?_, fun h4 => ⟨?_, ?_⟩, fun h5 h6 => ⟨?_, fun v hv hne => ?_⟩⟩
  · simp [requestServerToSubmitPRs, SUCCESS_RESPONSE_CODE, h1, h2]
  · simp [requestServerToSubmitPRs, SUCCESS_RESPONSE_CODE, UNAUTHORIZED_RESPONSE_CODE, h4,
      authExpiredMsg]
  · simp [submitPullRequest, requestServerToSubmitPRs, SUCCESS_RESPONSE_CODE,
      UNAUTHORIZED_RESPONSE_CODE, h4]
  · simp [requestServerToSubmitPRs, SUCCESS_RESPONSE_CODE, UNAUTHORIZED_RESPONSE_CODE, h5, h6]
  · simp [unexpectedResponseMsg, formattedRequestIdHeader, hv, hne]

/-- Witness for C4 at three concrete server responses (200, 401, 500). -/
theorem requestServerToSubmitPRs_transport_w :
    (requestServerToSubmitPRs [] "https://app.graphite.dev"
        (ServerResponse.mk 200 true [] none "resp") =
      .ok (([] : List TSubmittedPRResponse).map fun prResponse =>
        { request := lookupRequest [] prResponse.head, response := prResponse })) ∧
    (requestServerToSubmitPRs [] "https://app.graphite.dev"
        (ServerResponse.mk 401 true [] none "resp") =
      .error (.preconditionsFailed
        ("Your Graphite auth token is invalid/expired.\n\nPlease obtain a new auth token by visiting " ++
          "https://app.graphite.dev" ++ "/activate")) ∧
      submitPullRequest (fun _ => none) [] "https://app.graphite.dev"
        (ServerResponse.mk 401 true [] none "resp") =
      .error (.preconditionsFailed (authExpiredMsg "https://app.graphite.dev"))) ∧
    (requestServerToSubmitPRs [] "https://app.graphite.dev"
        (ServerResponse.mk 500 true [] (some "req-7") "resp") =
      .error (.exitFailed (unexpectedResponseMsg
        (ServerResponse.mk 500 true [] (some "req-7") "resp"))) ∧
      ∀ v, (ServerResponse.mk 500 true [] (some "req-7") "resp").requestId = some v → v ≠ "" →
        unexpectedResponseMsg (ServerResponse.mk 500 true [] (some "req-7") "resp") =
          "Unexpected server response (" ++
            toString (ServerResponse.mk 500 true [] (some "req-7") "resp").status ++
            ").\n\nHeaders:\n" ++ ("  x-graphite-request-id: " ++ v) ++ "\n\nResponse: " ++
            (ServerResponse.mk 500 true [] (some "req-7") "resp").rendered) :=
  ⟨(requestServerToSubmitPRs_transport [] "https://app.graphite.dev"
      (ServerResponse.mk 200 true [] none "resp") (fun _ => none)).1 rfl rfl,
    (requestServerToSubmitPRs_transport [] "https://app.graphite.dev"
      (ServerResponse.mk 401 true [] none "resp") (fun _ => none)).2.1 rfl,
    (requestServerToSubmitPRs_transport [] "https://app.graphite.dev"
      (ServerResponse.mk 500 true [] (some "req-7") "resp") (fun _ => none)).2.2
      (by decide) (by decide)⟩

/-- Inversion of the success path: whenever `requestServerToSubmitPRs`
resolves, its result is the head-name pairing of the response entries. -/
lemma requestServerToSubmitPRs_ok_inv (submissionInfo : List TSubmittedPRRequest)
    (appServerUrl : String) (r : ServerResponse) (prs : List TSubmittedPR)
    (h : requestServerToSubmitPRs submissionInfo appServerUrl r = .ok prs) :
    prs = r.prs.map fun prResponse =>
      { request := lookupRequest submissionInfo prResponse.head, response := prResponse } := by
  unfold requestServerToSubmitPRs at h
  split at h
  · exact (Except.ok.inj h).symm
  · split at h <;> simp at h

/-- C9: a per-branch error response makes `submitPullRequest` throw an
error naming the response head together with the message
`parseSubmitError` extracts — the response.data.message field when the
error string parses as JSON, the raw string otherwise — and perform no
prInfo write. -/
theorem submitPullRequest_error_response (parseJson : String → Option Json)
    (submissionInfo : List TSubmittedPRRequest) (appServerUrl : String)
    (r : ServerResponse) (resp : TSubmittedPRResponse)
    (h200 : r.status = 200) (hbody : r.hasBody = true)
    (hfirst : r.prs.head? = some resp)
    (herr : resp.status = PRResponseStatus.error) :
    submitPullRequest parseJson submissionInfo appServerUrl r =
      .error (.exitFailed (submitFailedMsg resp.head (parseSubmitError parseJson resp.error))) ∧
    (∀ writes, submitPullRequest parseJson submissionInfo appServerUrl r ≠ .ok writes) ∧
    (parseJson resp.error = none → parseSubmitError parseJson resp.error = resp.error) ∧
    (∀ j m, parseJson resp.error = some j →
      jsGet (jsGet (jsGet (some j) "response") "data") "message" = some (Json.str m) →
      parseSubmitError parseJson resp.error = m) := by
  have h1 : submitPullRequest parseJson submissionInfo appServerUrl r =
      .error (.exitFailed (submitFailedMsg resp.head (parseSubmitError parseJson resp.error))) := by
    simp [submitPullRequest, requestServerToSubmitPRs, SUCCESS_RESPONSE_CODE, h200, hbody,
      List.head?_map, hfirst, herr]
  refine ⟨h1, fun writes hw => ?_, fun hn => ?_, fun j m hj hm => ?_⟩
  · rw [h1] at hw
    exact Except.noConfusion hw
  · simp [parseSubmitError, hn]
  · simp [parseSubmitError, hj, hm, jsDisplay]

/-- Witness for C9 at a one-branch batch whose response reports an error. -/
theorem submitPullRequest_error_response_w :
    (submitPullRequest (fun _ => none)
        [TSubmittedPRRequest.mk SubmitAction.update "B" "A" none none none]
        "https://app.graphite.dev"
        (ServerResponse.mk 200 true
          [TSubmittedPRResponse.mk "B" PRResponseStatus.error 0 "" "boom"] none "resp") =
      .error (.exitFailed (submitFailedMsg "B"
        (parseSubmitError (fun _ => none) "boom")))) ∧
    (∀ writes, submitPullRequest (fun _ => none)
        [TSubmittedPRRequest.mk SubmitAction.update "B" "A" none none none]
        "https://app.graphite.dev"
        (ServerResponse.mk 200 true
          [TSubmittedPRResponse.mk "B" PRResponseStatus.error 0 "" "boom"] none "resp") ≠
      .ok writes) :=
  ⟨(submitPullRequest_error_response (fun _ => none)
      [TSubmittedPRRequest.mk SubmitAction.update "B" "A" none none none]
      "https://app.graphite.dev"
      (ServerResponse.mk 200 true
        [TSubmittedPRResponse.mk "B" PRResponseStatus.error 0 "" "boom"] none "resp")
      (TSubmittedPRResponse.mk "B" PRResponseStatus.error 0 "" "boom")
      rfl rfl rfl rfl).1,
    (submitPullRequest_error_response (fun _ => none)
      [TSubmittedPRRequest.mk SubmitAction.update "B" "A" none none none]
      "https://app.graphite.dev"
      (ServerResponse.mk 200 true
        [TSubmittedPRResponse.mk "B" PRResponseStatus.error 0 "" "boom"] none "resp")
      (TSubmittedPRResponse.mk "B" PRResponseStatus.error 0 "" "boom")
      rfl rfl rfl rfl).2.1⟩

/-- C3 counterexample: a two-branch batch whose responses both succeed,
yet only the first branch receives an upsertPrInfo write — the source
applies element [0] of the response pairs only, so the claim's "for every
submitted branch in the batch" fails. -/
theorem submitPullRequest_not_every_branch :
    submitPullRequest (fun _ => none)
        [TSubmittedPRRequest.mk SubmitAction.update "A" "main" none none none,
         TSubmittedPRRequest.mk SubmitAction.update "B" "A" none none none]
        "https://app.graphite.dev"
        (ServerResponse.mk 200 true
          [TSubmittedPRResponse.mk "A" PRResponseStatus.updated 1 "urlA" "",
           TSubmittedPRResponse.mk "B" PRResponseStatus.updated 2 "urlB" ""] none "resp") =
      .ok [("A", PrInfoPatch.mk 1 "urlA" "main" PRState.OPEN none none none none)] ∧
    "B" ∈ [TSubmittedPRRequest.mk SubmitAction.update "A" "main" none none none,
           TSubmittedPRRequest.mk SubmitAction.update "B" "A" none none none].map
        (fun rq => rq.head) ∧
    ∀ w ∈ [("A", PrInfoPatch.mk 1 "urlA" "main" PRState.OPEN none none none none)],
      Prod.fst w ≠ "B" :=
  ⟨rfl, by decide, by decide⟩

/-- C3 amended: `submitPullRequest` applies only the first response of the
batch — on success it issues exactly one upsertPrInfo, for the head of the
first response, carrying that response's PR number and URL, base equal to
the paired request's base (the branch's parent name) and state OPEN; hence
for the one-branch batches the callers build, every submitted branch ends
with prInfo.base = parentName. -/
theorem submitPullRequest_first_upsert (parseJson : String → Option Json)
    (submissionInfo : List TSubmittedPRRequest) (appServerUrl : String)
    (r : ServerResponse) (writes : List (String × PrInfoPatch))
    (h : submitPullRequest parseJson submissionInfo appServerUrl r = .ok writes) :
    ∃ pr req, r.prs.head? = some pr ∧ lookupRequest submissionInfo pr.head = some req ∧
      pr.status ≠ PRResponseStatus.error ∧
      writes = [(pr.head, prInfoPatchOf req pr)] ∧
      (prInfoPatchOf req pr).base = req.base ∧
      (prInfoPatchOf req pr).state = PRState.OPEN ∧
      (prInfoPatchOf req pr).number = pr.prNumber ∧
      (prInfoPatchOf req pr).url = pr.prURL := by
  unfold submitPullRequest at h
  rcases hq : requestServerToSubmitPRs submissionInfo appServerUrl r with e | prs
  · rw [hq] at h
    exact absurd h (by simp)
  · rw [hq] at h
    have hprs := requestServerToSubmitPRs_ok_inv submissionInfo appServerUrl r prs hq
    subst hprs
    cases hh : r.prs.head? with
    | none =>
      simp only [List.head?_map, hh, Option.map_none'] at h
      exact absurd h (by simp)
    | some pr =>
      simp only [List.head?_map, hh, Option.map_some'] at h
      by_cases hstat : pr.status = PRResponseStatus.error
      · rw [if_pos (by simpa using hstat)] at h
        exact absurd h (by simp)
      · rw [if_neg (by simpa using hstat)] at h
        cases hreq : lookupRequest submissionInfo pr.head with
        | none =>
          rw [hreq] at h
          exact absurd h (by simp)
        | some req =>
          rw [hreq] at h
          exact ⟨pr, req, rfl, hreq, hstat, (Except.ok.inj h).symm, rfl, rfl, rfl, rfl⟩

/-- Witness for C3 (amended) at a one-branch batch with a created PR. -/
theorem submitPullRequest_first_upsert_w :
    ∃ pr req,
      (ServerResponse.mk 200 true
          [TSubmittedPRResponse.mk "B" PRResponseStatus.created 7 "urlB" ""]
          none "resp").prs.head? = some pr ∧
      lookupRequest
          [TSubmittedPRRequest.mk SubmitAction.create "B" "A" (some "t") (some "d") none]
          pr.head = some req ∧
      pr.status ≠ PRResponseStatus.error ∧
      [("B", prInfoPatchOf
          (TSubmittedPRRequest.mk SubmitAction.create "B" "A" (some "t") (some "d") none)
          (TSubmittedPRResponse.mk "B" PRResponseStatus.created 7 "urlB" ""))] =
        [(pr.head, prInfoPatchOf req pr)] ∧
      (prInfoPatchOf req pr).base = req.base ∧
      (prInfoPatchOf req pr).state = PRState.OPEN ∧
      (prInfoPatchOf req pr).number = pr.prNumber ∧
      (prInfoPatchOf req pr).url = pr.prURL :=
  submitPullRequest_first_upsert (fun _ => none)
    [TSubmittedPRRequest.mk SubmitAction.create "B" "A" (some "t") (some "d") none]
    "https://app.graphite.dev"
    (ServerResponse.mk 200 true
      [TSubmittedPRResponse.mk "B" PRResponseStatus.created 7 "urlB" ""] none "resp")
    [("B", prInfoPatchOf
      (TSubmittedPRRequest.mk SubmitAction.create "B" "A" (some "t") (some "d") none)
      (TSubmittedPRResponse.mk "B" PRResponseStatus.created 7 "urlB" ""))]
    rfl

/-- Modelled from the spec: the per-branch meta record the restack engine
reads and writes — the parent edge and the previous ref. -/
structure BranchMeta where
  parent : Option String := none
  prevRef : Option String := none
deriving DecidableEq

/-- Lookup in an association list keyed by branch name. -/
def lookupA {α : Type} : List (String × α) → String → Option α
  | [], _ => none
  | (k, v) :: rest, key => if k = key then some v else lookupA rest key

/-- Insert-or-replace in an association list, keeping the store order of an
existing key and appending a new one. -/
def setA {α : Type} : List (String × α) → String → α → List (String × α)
  | [], key, v => [(key, v)]
  | (k, w) :: rest, key, v =>
    if k = key then (key, v) :: rest else (k, w) :: setA rest key v

/-- The repository state the restack engine touches: branch tips, the meta
store, the checked-out branch, and the two working-tree flags the
preconditions read. -/
structure EngineState where
  refs : List (String × String)
  meta : List (String × BranchMeta)
  currentBranch : Option String
  rebaseInProgress : Bool
  uncommittedChanges : Bool
deriving DecidableEq

/-- The external collaborators of the restack command, as oracles:
`git merge-base` (none = no common ancestor), whether a given
`git rebase --onto newBase oldBase branch` exits zero and the tip it
produces when it does, the `trunkBranches` map from lib/utils (`none` =
unset, matching the `trunkBranches && ...` guard), the repo-config path
interpolated into the trunk message, and the outcome of the
`ValidateCommand` run by `validate` (its code is outside this slice). -/
structure GitEnv where
  mergeBase : String → String → Option String
  rebaseSucceeds : String → String → String → Bool
  rebasedTip : String → String → String → String
  trunkBranches : Option (List String)
  repoConfigPath : String
  validatePasses : Bool

/-- Modelled from the spec: the meta store read behind
`Branch.getParentFromMeta`. -/
def getParentFromMeta (s : EngineState) (b : String) : Option String :=
  (lookupA s.meta b).bind (fun m => m.parent)

/-- Modelled from the spec: the meta store read behind `getPrevRef`. -/
def getMetaPrevRef (s : EngineState) (b : String) : Option String :=
  (lookupA s.meta b).bind (fun m => m.prevRef)

/-- Modelled from the spec: `Branch.setMetaPrevRef` — a single-key meta
write of the previous ref. -/
def setMetaPrevRef (s : EngineState) (b : String) (sha : String) : EngineState :=
  { s with meta := setA s.meta b { (lookupA s.meta b).getD {} with prevRef := some sha } }

/-- Modelled from the spec: `Branch.setParentBranchName` — a single-key
meta write of the parent edge. -/
def setParentBranchName (s : EngineState) (b : String) (p : String) : EngineState :=
  { s with meta := setA s.meta b { (lookupA s.meta b).getD {} with parent := some p } }

/-- Modelled from the spec: `readRef` / `Branch.getCurrentRef` — the SHA
the branch ref points at. -/
def getCurrentRef (s : EngineState) (b : String) : Option String :=
  lookupA s.refs b

/-- The SHA string `getCurrentRef` hands to `setMetaPrevRef` (the branch
the engine restacks always has a ref). -/
def currentRefD (s : EngineState) (b : String) : String :=
  (getCurrentRef s b).getD ""

/-- Modelled from the spec: `checkoutBranch` from lib/utils. -/
def checkoutBranch (s : EngineState) (b : String) : EngineState :=
  { s with currentBranch := some b }

/-- Modelled from the spec: `Branch.getMetaMergeBase` — the stored prevRef
when set, else the live `git merge-base` with the meta parent. -/
def getMetaMergeBase (env : GitEnv) (s : EngineState) (b : String) : Option String :=
  match getMetaPrevRef s b with
  | some r => some r
  | none =>
    match getParentFromMeta s b with
    | some p => env.mergeBase b p
    | none => none

/-- Modelled from the spec: `Branch.getChildrenFromMeta` — every tracked
branch whose meta parent is this branch, in meta-store order. -/
def getChildrenFromMeta (s : EngineState) (b : String) : List String :=
  (s.meta.filter fun e => decide (e.2.parent = some b)).map (fun e => e.1)

/-- The state after a successful
`git rebase --onto newBase oldBase branch`: the branch ref moves to the
rebased tip and the working tree is left on that branch. -/
def applyRebase (env : GitEnv) (s : EngineState) (newBase oldBase branch : String) :
    EngineState :=
  { s with refs := setA s.refs branch (env.rebasedTip newBase oldBase branch)
           currentBranch := some branch }

/-- How a run of the restack command ends: normally, by `process.exit(1)`
out of `logErrorAndExit` (or an exit helper), by an `execSync` git failure
propagating (a rebase conflict), or with the traversal fuel spent (never
hit at the depths the theorems use). Each outcome carries the state the
process left behind. -/
inductive RunResult where
  | ok (s : EngineState)
  | exited (msg : String) (s : EngineState)
  | gitFailed (branch : String) (s : EngineState)
  | fuelOut (s : EngineState)
deriving DecidableEq

/-- The `logErrorAndExit` message of `restackBranch` when a rebase is in
progress. -/
def rebaseInProgressMsg (b : String) : String :=
  "Interactive rebase in progress, cannot restack (" ++ b ++
    "). Complete the rebase and re-run restack command."

/-- The `logErrorAndExit` message of `restackBranch` when the branch has no
meta parent. -/
def noParentMsg (b : String) : String :=
  "Cannot find parent from meta defined stack for (" ++ b ++ "), stopping restack"

/-- The `logErrorAndExit` message of `restackBranch` when no merge base is
found. -/
def noMergeBaseMsg (b : String) : String :=
  "Cannot find a merge base from meta defined stack for (" ++ b ++ "), stopping restack"

/-- The recursive restack traversal of restack/index.ts, rendered with an
explicit depth-first work list (`jobs` holds the branches still to
restack, children pushed in front of the remaining siblings — the same
visit order and state threading as the source's recursion in
`restackBranch` and the `for child of getChildrenFromMeta` loops) and a
fuel bound for termination. Each job runs the body of `restackBranch`:
check for a rebase in progress, fetch the meta parent and the meta merge
base (exiting on failure before any write), record the current tip as
prevRef, check the branch out, run the rebase, and on success continue
with the children; `logErrorAndExit` and a thrown `execSync` both end the
whole process, so they end the traversal with no later job run. -/
def restackTraverse (env : GitEnv) : Nat → List String → EngineState → RunResult
  | _, [], s => .ok s
  | 0, _ :: _, s => .fuelOut s
  | fuel + 1, b :: rest, s =>
    if s.rebaseInProgress then .exited (rebaseInProgressMsg b) s
    else
      match getParentFromMeta s b with
      | none => .exited (noParentMsg b) s
      | some parentName =>
        match getMetaMergeBase env s b with
        | none => .exited (noMergeBaseMsg b) s
        | some mergeBase =>
          let s1 := setMetaPrevRef s b (currentRefD s b)
          let s2 := checkoutBranch s1 b
          if env.rebaseSucceeds parentName mergeBase b then
            let s3 := applyRebase env s2 parentName mergeBase b
            restackTraverse env fuel (getChildrenFromMeta s3 b ++ rest) s3
          else .gitFailed b s2

/-- `restackBranch` from restack/index.ts: the traversal started on a
single branch. -/
def restackBranch (env : GitEnv) (fuel : Nat) (b : String) (s : EngineState) : RunResult :=
  restackTraverse env fuel [b] s

/-- The trunk-branch message of `checkBranchCanBeMoved`. -/
def trunkMsg (env : GitEnv) (b onto : String) : String :=
  "Cannot restack (" ++ b ++ ") onto " ++ onto ++ ", (" ++ b ++ ") is listed in (" ++
    env.repoConfigPath ++ ") as a trunk branch."

/-- The trunk test of `checkBranchCanBeMoved`:
`trunkBranches && branch.name in trunkBranches`. -/
def isTrunkListed (env : GitEnv) (b : String) : Bool :=
  match env.trunkBranches with
  | none => false
  | some l => decide (b ∈ l)

/-- The message of `validate` when the `ValidateCommand` run throws. -/
def validateFailedMsg : String :=
  "Cannot \"restack --onto\", git derived stack must match meta defined stack. Consider running \"restack\" or \"fix\" first."

/-- The message of `getParentForRebaseOnto` when the branch has no meta
parent. -/
def noParentOntoMsg (b : String) : String :=
  "Cannot \"restack --onto\", (" ++ b ++ ") has no parent as defined by the meta."

/-- `restackOnto` from restack/index.ts: gate on `checkBranchCanBeMoved`
and `validate`, fetch the parent, record prevRef, rebase the current
branch onto the target with the live `git merge-base(current, parent)` as
the old base, set the meta parent to the target only if the rebase
succeeded (`execSync` would have thrown), then restack the children. -/
def restackOnto (env : GitEnv) (fuel : Nat) (currentBranch onto : String)
    (s : EngineState) : RunResult :=
  if isTrunkListed env currentBranch then .exited (trunkMsg env currentBranch onto) s
  else if env.validatePasses = false then .exited validateFailedMsg s
  else
    match getParentFromMeta s currentBranch with
    | none => .exited (noParentOntoMsg currentBranch) s
    | some parentName =>
      let s1 := setMetaPrevRef s currentBranch (currentRefD s currentBranch)
      let mb := (env.mergeBase currentBranch parentName).getD ""
      if env.rebaseSucceeds onto mb currentBranch then
        let s2 := applyRebase env s1 onto mb currentBranch
        let s3 := setParentBranchName s2 currentBranch onto
        restackTraverse env fuel (getChildrenFromMeta s3 currentBranch) s3
      else .gitFailed currentBranch s1

/-- The `logErrorAndExit` message of `RestackCommand._execute` on a dirty
tree. -/
def uncommittedMsg : String := "Cannot restack with uncommitted changes"

/-- The `logErrorAndExit` message of `RestackCommand._execute` when not on
a branch. -/
def notOnBranchMsg : String := "Not currently on a branch; no target to restack."

/-- `RestackCommand._execute` from restack/index.ts: refuse a dirty tree,
resolve the current branch, run `restackOnto` or the plain children
traversal, and check the original branch out again on success (an exit or
a thrown git error skips the final checkout). -/
def restackCommand (env : GitEnv) (fuel : Nat) (onto : Option String)
    (s : EngineState) : RunResult :=
  if s.uncommittedChanges then .exited uncommittedMsg s
  else
    match s.currentBranch with
    | none => .exited notOnBranchMsg s
    | some originalBranch =>
      let r := match onto with
        | some t => restackOnto env fuel originalBranch t s
        | none => restackTraverse env fuel (getChildrenFromMeta s originalBranch) s
      match r with
      | .ok s1 => .ok (checkoutBranch s1 originalBranch)
      | other => other

lemma lookupA_setA_self {α : Type} (l : List (String × α)) (k : String) (v : α) :
    lookupA (setA l k v) k = some v := by
  induction l with
  | nil => simp [setA, lookupA]
  | cons e rest ih =>
    obtain ⟨k1, w⟩ := e
    by_cases h : k1 = k
    · simp [setA, h, lookupA]
    · simp [setA, h, lookupA, ih]

lemma lookupA_setA_ne {α : Type} (l : List (String × α)) (k : String) (v : α)
    (k' : String) (h : k' ≠ k) : lookupA (setA l k v) k' = lookupA l k' := by
  have h2 : ¬(k = k') := fun he => h he.symm
  induction l with
  | nil => simp [setA, lookupA, h2]
  | cons e rest ih =>
    obtain ⟨k1, w⟩ := e
    by_cases h1 : k1 = k
    · subst h1
      simp [setA, lookupA, h2]
    · simp [setA, h1, lookupA, ih]

/-- C1: `restackBranch` records the branch's current tip as prevRef before
invoking the rebase, and when the rebase exits non-zero the traversal
aborts at once — the result is the failure state in which prevRef(b) is
already the old tip, no ref moved, no other branch's meta changed (so no
child of b was restacked), and when b heads a work list of pending
siblings, those siblings are never reached. -/
theorem restackBranch_conflict_aborts (env : GitEnv) (fuel : Nat) (b : String)
    (s : EngineState) (p mb : String)
    (hrip : s.rebaseInProgress = false)
    (hp : getParentFromMeta s b = some p)
    (hmb : getMetaMergeBase env s b = some mb)
    (hconflict : env.rebaseSucceeds p mb b = false) :
    restackBranch env (fuel + 1) b s =
      .gitFailed b (checkoutBranch (setMetaPrevRef s b (currentRefD s b)) b) ∧
    getMetaPrevRef (checkoutBranch (setMetaPrevRef s b (currentRefD s b)) b) b =
      some (currentRefD s b) ∧
    (checkoutBranch (setMetaPrevRef s b (currentRefD s b)) b).refs = s.refs ∧
    (∀ c, c ≠ b →
      lookupA (checkoutBranch (setMetaPrevRef s b (currentRefD s b)) b).meta c =
        lookupA s.meta c) ∧
    (∀ rest, restackTraverse env (fuel + 1) (b :: rest) s =
      .gitFailed b (checkoutBranch (setMetaPrevRef s b (currentRefD s b)) b)) := by
  have key : ∀ rest, restackTraverse env (fuel + 1) (b :: rest) s =
      .gitFailed b (checkoutBranch (setMetaPrevRef s b (currentRefD s b)) b) := by
    intro rest
    simp [restackTraverse, hrip, hp, hmb, hconflict]
  refine ⟨key [], ?_, rfl, fun c hc => ?_, key⟩
  · simp [getMetaPrevRef, checkoutBranch, setMetaPrevRef, lookupA_setA_self]
  · simp [checkoutBranch, setMetaPrevRef, lookupA_setA_ne _ _ _ _ hc]

/-- Witness for C1 on a two-branch stack where the rebase of B conflicts. -/
theorem restackBranch_conflict_aborts_w :
    restackBranch
        (GitEnv.mk (fun _ _ => some "mb0") (fun _ _ _ => false) (fun _ _ _ => "tip")
          (some ["main"]) "repo-config-path" true) 3 "B"
        (EngineState.mk [("A", "shaA"), ("B", "shaB1")]
          [("B", BranchMeta.mk (some "A") (some "mb0")),
           ("C", BranchMeta.mk (some "B") (some "shaC0"))]
          (some "A") false false) =
      .gitFailed "B"
        (checkoutBranch
          (setMetaPrevRef
            (EngineState.mk [("A", "shaA"), ("B", "shaB1")]
              [("B", BranchMeta.mk (some "A") (some "mb0")),
               ("C", BranchMeta.mk (some "B") (some "shaC0"))]
              (some "A") false false) "B"
            (currentRefD
              (EngineState.mk [("A", "shaA"), ("B", "shaB1")]
                [("B", BranchMeta.mk (some "A") (some "mb0")),
                 ("C", BranchMeta.mk (some "B") (some "shaC0"))]
                (some "A") false false) "B")) "B") :=
  (restackBranch_conflict_aborts
    (GitEnv.mk (fun _ _ => some "mb0") (fun _ _ _ => false) (fun _ _ _ => "tip")
      (some ["main"]) "repo-config-path" true) 2 "B"
    (EngineState.mk [("A", "shaA"), ("B", "shaB1")]
      [("B", BranchMeta.mk (some "A") (some "mb0")),
       ("C", BranchMeta.mk (some "B") (some "shaC0"))]
      (some "A") false false)
    "A" "mb0" rfl rfl rfl rfl).1

/-- The git environment of the C6 counterexample: every rebase succeeds. -/
def c6Env : GitEnv :=
  GitEnv.mk (fun _ _ => some "mb0") (fun _ _ _ => true) (fun _ _ _ => "shaB2")
    (some ["main"]) "repo-config-path" true

/-- The state of the C6 counterexample: a dirty working tree
(uncommittedChanges = true), no rebase in progress, and branch B with a
parent and a stored prevRef. -/
def c6State : EngineState :=
  EngineState.mk [("A", "shaA"), ("B", "shaB1")]
    [("B", BranchMeta.mk (some "A") (some "mb0"))] (some "A") false true

/-- C6 counterexample: with uncommitted changes present (and every other
precondition satisfied), `restackBranch` does not exit — it rebases B and
rewrites B's meta, refuting the claim that `restackBranch` requires a
clean tree before any rebase or meta write. -/
theorem restackBranch_ignores_uncommitted :
    c6State.uncommittedChanges = true ∧
    restackBranch c6Env 2 "B" c6State =
      .ok (EngineState.mk [("A", "shaA"), ("B", "shaB2")]
        [("B", BranchMeta.mk (some "A") (some "shaB1"))] (some "B") false true) ∧
    getMetaPrevRef (EngineState.mk [("A", "shaA"), ("B", "shaB2")]
        [("B", BranchMeta.mk (some "A") (some "shaB1"))] (some "B") false true) "B" ≠
      getMetaPrevRef c6State "B" ∧
    (EngineState.mk [("A", "shaA"), ("B", "shaB2")]
        [("B", BranchMeta.mk (some "A") (some "shaB1"))] (some "B") false true).refs ≠
      c6State.refs := by
  decide

/-- C6 amended: `restackBranch` requires, before any rebase or meta write,
that no rebase is in progress, that the branch has a meta parent, and that
a meta merge base exists — failing any of these it exits with an error and
mutates neither Git nor meta; the no-uncommitted-changes check is made
once, at command entry in `RestackCommand._execute`, before any restack,
not inside `restackBranch`. -/
theorem restackBranch_preconditions (env : GitEnv) (fuel : Nat) (b : String)
    (onto : Option String) (s : EngineState) :
    (s.rebaseInProgress = true →
      restackBranch env (fuel + 1) b s = .exited (rebaseInProgressMsg b) s) ∧
    (s.rebaseInProgress = false → getParentFromMeta s b = none →
      restackBranch env (fuel + 1) b s = .exited (noParentMsg b) s) ∧
    (∀ p, s.rebaseInProgress = false → getParentFromMeta s b = some p →
      getMetaMergeBase env s b = none →
      restackBranch env (fuel + 1) b s = .exited (noMergeBaseMsg b) s) ∧
    (s.uncommittedChanges = true →
      restackCommand env fuel onto s = .exited uncommittedMsg s) := by
  refine ⟨fun h1 => ?_, fun h1 h2 => ?_, fun p h1 h2 h3 => ?_, fun h1 => ?_⟩
  · simp [restackBranch, restackTraverse, h1]
  · simp [restackBranch, restackTraverse, h1, h2]
  · simp [restackBranch, restackTraverse, h1, h2, h3]
  · simp [restackCommand, h1]

/-- Witness for C6 (amended) at four concrete states, one per
precondition. -/
theorem restackBranch_preconditions_w :
    restackBranch c6Env 1 "B"
        (EngineState.mk [("B", "shaB1")] [("B", BranchMeta.mk (some "A") none)]
          (some "B") true false) =
      .exited (rebaseInProgressMsg "B")
        (EngineState.mk [("B", "shaB1")] [("B", BranchMeta.mk (some "A") none)]
          (some "B") true false) ∧
    restackBranch c6Env 1 "B"
        (EngineState.mk [("B", "shaB1")] [] (some "B") false false) =
      .exited (noParentMsg "B")
        (EngineState.mk [("B", "shaB1")] [] (some "B") false false) ∧
    restackBranch (GitEnv.mk (fun _ _ => none) (fun _ _ _ => true) (fun _ _ _ => "t")
          none "repo-config-path" true) 1 "B"
        (EngineState.mk [("B", "shaB1")] [("B", BranchMeta.mk (some "A") none)]
          (some "B") false false) =
      .exited (noMergeBaseMsg "B")
        (EngineState.mk [("B", "shaB1")] [("B", BranchMeta.mk (some "A") none)]
          (some "B") false false) ∧
    restackCommand c6Env 1 none
        (EngineState.mk [("B", "shaB1")] [("B", BranchMeta.mk (some "A") none)]
          (some "B") false true) =
      .exited uncommittedMsg
        (EngineState.mk [("B", "shaB1")] [("B", BranchMeta.mk (some "A") none)]
          (some "B") false true) :=
  ⟨(restackBranch_preconditions c6Env 0 "B" none
      (EngineState.mk [("B", "shaB1")] [("B", BranchMeta.mk (some "A") none)]
        (some "B") true false)).1 rfl,
    (restackBranch_preconditions c6Env 0 "B" none
      (EngineState.mk [("B", "shaB1")] [] (some "B") false false)).2.1 rfl rfl,
    (restackBranch_preconditions (GitEnv.mk (fun _ _ => none) (fun _ _ _ => true)
        (fun _ _ _ => "t") none "repo-config-path" true) 0 "B" none
      (EngineState.mk [("B", "shaB1")] [("B", BranchMeta.mk (some "A") none)]
        (some "B") false false)).2.2.1 "A" rfl rfl rfl,
    (restackBranch_preconditions c6Env 1 "B" none
      (EngineState.mk [("B", "shaB1")] [("B", BranchMeta.mk (some "A") none)]
        (some "B") false true)).2.2.2 rfl⟩

/-- The state `restackOnto` reaches when its rebase succeeds: prevRef
recorded, the branch rebased onto the target with the live
merge-base(current, parent) as the old base, and the meta parent switched
to the target. -/
def ontoResult (env : GitEnv) (s : EngineState) (cur onto p : String) : EngineState :=
  setParentBranchName
    (applyRebase env (setMetaPrevRef s cur (currentRefD s cur)) onto
      ((env.mergeBase cur p).getD "") cur)
    cur onto

/-- C7: after a successful `restack --onto T` on branch C, prevRef(C) is
the SHA C pointed at before, C is rebased onto T with
merge-base(C, old parent) as the old base, C's meta parent becomes T, and
the children of C are then restacked; when the rebase fails, the meta
parent is left unchanged (prevRef, recorded before the rebase, is already
updated). -/
theorem restackOnto_moves (env : GitEnv) (fuel : Nat) (cur onto : String)
    (s : EngineState) (p : String)
    (htrunk : isTrunkListed env cur = false)
    (hval : env.validatePasses = true)
    (hp : getParentFromMeta s cur = some p) :
    (env.rebaseSucceeds onto ((env.mergeBase cur p).getD "") cur = true →
      restackOnto env fuel cur onto s =
        restackTraverse env fuel (getChildrenFromMeta (ontoResult env s cur onto p) cur)
          (ontoResult env s cur onto p) ∧
      getMetaPrevRef (ontoResult env s cur onto p) cur = some (currentRefD s cur) ∧
      getParentFromMeta (ontoResult env s cur onto p) cur = some onto ∧
      getCurrentRef (ontoResult env s cur onto p) cur =
        some (env.rebasedTip onto ((env.mergeBase cur p).getD "") cur)) ∧
    (env.rebaseSucceeds onto ((env.mergeBase cur p).getD "") cur = false →
      restackOnto env fuel cur onto s =
        .gitFailed cur (setMetaPrevRef s cur (currentRefD s cur)) ∧
      getParentFromMeta (setMetaPrevRef s cur (currentRefD s cur)) cur = some p ∧
      getMetaPrevRef (setMetaPrevRef s cur (currentRefD s cur)) cur =
        some (currentRefD s cur)) := by
  have hparent_entry : ∃ m, lookupA s.meta cur = some m ∧ m.parent = some p := by
    cases hl : lookupA s.meta cur with
    | none => rw [getParentFromMeta, hl] at hp; exact absurd hp (by simp)
    | some m => rw [getParentFromMeta, hl] at hp; exact ⟨m, rfl, hp⟩
  obtain ⟨m, hl, hmp⟩ := hparent_entry
  refine ⟨fun hsucc => ⟨?_, ?_, ?_, ?_⟩, fun hfail => ⟨?_, ?_, ?_⟩⟩
  · simp [restackOnto, htrunk, hval, hp, hsucc, ontoResult]
  · simp [ontoResult, setParentBranchName, applyRebase, setMetaPrevRef, getMetaPrevRef,
      lookupA_setA_self]
  · simp [ontoResult, setParentBranchName, applyRebase, setMetaPrevRef, getParentFromMeta,
      lookupA_setA_self]
  · simp [ontoResult, setParentBranchName, applyRebase, setMetaPrevRef, getCurrentRef,
      lookupA_setA_self]
  · simp [restackOnto, htrunk, hval, hp, hfail]
  · simp [getParentFromMeta, setMetaPrevRef, lookupA_setA_self, hl, hmp]
  · simp [getMetaPrevRef, setMetaPrevRef, lookupA_setA_self]

/-- Witness for C7: a successful `restack --onto feature` of A (with
parent main) on the stack main → A → B. -/
theorem restackOnto_moves_w :
    restackOnto
        (GitEnv.mk (fun _ _ => some "mbA") (fun _ _ _ => true) (fun _ _ _ => "shaA2")
          (some ["main"]) "repo-config-path" true) 4 "A" "feature"
        (EngineState.mk [("main", "shaM"), ("feature", "shaF"), ("A", "shaA1"), ("B", "shaB1")]
          [("A", BranchMeta.mk (some "main") none), ("B", BranchMeta.mk (some "A") none)]
          (some "A") false false) =
      restackTraverse
        (GitEnv.mk (fun _ _ => some "mbA") (fun _ _ _ => true) (fun _ _ _ => "shaA2")
          (some ["main"]) "repo-config-path" true) 4
        (getChildrenFromMeta (ontoResult
          (GitEnv.mk (fun _ _ => some "mbA") (fun _ _ _ => true) (fun _ _ _ => "shaA2")
            (some ["main"]) "repo-config-path" true)
          (EngineState.mk [("main", "shaM"), ("feature", "shaF"), ("A", "shaA1"), ("B", "shaB1")]
            [("A", BranchMeta.mk (some "main") none), ("B", BranchMeta.mk (some "A") none)]
            (some "A") false false) "A" "feature" "main") "A")
        (ontoResult
          (GitEnv.mk (fun _ _ => some "mbA") (fun _ _ _ => true) (fun _ _ _ => "shaA2")
            (some ["main"]) "repo-config-path" true)
          (EngineState.mk [("main", "shaM"), ("feature", "shaF"), ("A", "shaA1"), ("B", "shaB1")]
            [("A", BranchMeta.mk (some "main") none), ("B", BranchMeta.mk (some "A") none)]
            (some "A") false false) "A" "feature" "main") ∧
    getMetaPrevRef (ontoResult
        (GitEnv.mk (fun _ _ => some "mbA") (fun _ _ _ => true) (fun _ _ _ => "shaA2")
          (some ["main"]) "repo-config-path" true)
        (EngineState.mk [("main", "shaM"), ("feature", "shaF"), ("A", "shaA1"), ("B", "shaB1")]
          [("A", BranchMeta.mk (some "main") none), ("B", BranchMeta.mk (some "A") none)]
          (some "A") false false) "A" "feature" "main") "A" =
      some (currentRefD
        (EngineState.mk [("main", "shaM"), ("feature", "shaF"), ("A", "shaA1"), ("B", "shaB1")]
          [("A", BranchMeta.mk (some "main") none), ("B", BranchMeta.mk (some "A") none)]
          (some "A") false false) "A") ∧
    getParentFromMeta (ontoResult
        (GitEnv.mk (fun _ _ => some "mbA") (fun _ _ _ => true) (fun _ _ _ => "shaA2")
          (some ["main"]) "repo-config-path" true)
        (EngineState.mk [("main", "shaM"), ("feature", "shaF"), ("A", "shaA1"), ("B", "shaB1")]
          [("A", BranchMeta.mk (some "main") none), ("B", BranchMeta.mk (some "A") none)]
          (some "A") false false) "A" "feature" "main") "A" = some "feature" ∧
    getCurrentRef (ontoResult
        (GitEnv.mk (fun _ _ => some "mbA") (fun _ _ _ => true) (fun _ _ _ => "shaA2")
          (some ["main"]) "repo-config-path" true)
        (EngineState.mk [("main", "shaM"), ("feature", "shaF"), ("A", "shaA1"), ("B", "shaB1")]
          [("A", BranchMeta.mk (some "main") none), ("B", BranchMeta.mk (some "A") none)]
          (some "A") false false) "A" "feature" "main") "A" =
      some ((GitEnv.mk (fun _ _ => some "mbA") (fun _ _ _ => true) (fun _ _ _ => "shaA2")
          (some ["main"]) "repo-config-path" true).rebasedTip "feature"
        (((GitEnv.mk (fun _ _ => some "mbA") (fun _ _ _ => true) (fun _ _ _ => "shaA2")
            (some ["main"]) "repo-config-path" true).mergeBase "A" "main").getD "") "A") :=
  (restackOnto_moves
    (GitEnv.mk (fun _ _ => some "mbA") (fun _ _ _ => true) (fun _ _ _ => "shaA2")
      (some ["main"]) "repo-config-path" true) 4 "A" "feature"
    (EngineState.mk [("main", "shaM"), ("feature", "shaF"), ("A", "shaA1"), ("B", "shaB1")]
      [("A", BranchMeta.mk (some "main") none), ("B", BranchMeta.mk (some "A") none)]
      (some "A") false false) "main" rfl rfl rfl).1 rfl

/-- C8: `restack --onto` is gated, before any rebase or meta mutation, on
the current branch not being a trunk branch and on the validator
succeeding; either failure exits with the respective message — the
trunk-branch refusal, or the instruction to run plain restack or fix
first — leaving the state untouched. -/
theorem restackOnto_gating (env : GitEnv) (fuel : Nat) (cur onto : String)
    (s : EngineState) :
    (isTrunkListed env cur = true →
      restackOnto env fuel cur onto s = .exited (trunkMsg env cur onto) s) ∧
    (isTrunkListed env cur = false → env.validatePasses = false →
      restackOnto env fuel cur onto s = .exited validateFailedMsg s) := by
  refine ⟨fun h1 => ?_, fun h1 h2 => ?_⟩
  · simp [restackOnto, h1]
  · simp [restackOnto, h1, h2]

/-- Witness for C8: moving a trunk branch is refused, and a failing
validator aborts the operation. -/
theorem restackOnto_gating_w :
    restackOnto
        (GitEnv.mk (fun _ _ => some "mb") (fun _ _ _ => true) (fun _ _ _ => "t")
          (some ["main"]) "repo-config-path" true) 1 "main" "feature"
        (EngineState.mk [("main", "shaM")] [] (some "main") false false) =
      .exited (trunkMsg
        (GitEnv.mk (fun _ _ => some "mb") (fun _ _ _ => true) (fun _ _ _ => "t")
          (some ["main"]) "repo-config-path" true) "main" "feature")
        (EngineState.mk [("main", "shaM")] [] (some "main") false false) ∧
    restackOnto
        (GitEnv.mk (fun _ _ => some "mb") (fun _ _ _ => true) (fun _ _ _ => "t")
          (some ["main"]) "repo-config-path" false) 1 "A" "feature"
        (EngineState.mk [("A", "shaA")] [("A", BranchMeta.mk (some "main") none)]
          (some "A") false false) =
      .exited validateFailedMsg
        (EngineState.mk [("A", "shaA")] [("A", BranchMeta.mk (some "main") none)]
          (some "A") false false) :=
  ⟨(restackOnto_gating
      (GitEnv.mk (fun _ _ => some "mb") (fun _ _ _ => true) (fun _ _ _ => "t")
        (some ["main"]) "repo-config-path" true) 1 "main" "feature"
      (EngineState.mk [("main", "shaM")] [] (some "main") false false)).1 rfl,
    (restackOnto_gating
      (GitEnv.mk (fun _ _ => some "mb") (fun _ _ _ => true) (fun _ _ _ => "t")
        (some ["main"]) "repo-config-path" false) 1 "A" "feature"
      (EngineState.mk [("A", "shaA")] [("A", BranchMeta.mk (some "main") none)]
        (some "A") false false)).2 rfl rfl⟩

end GraphiteCli
